import Mathlib

/-!
# LAModbus — verification of the transaction engine and register monitor

Shallow embedding of the LAModbus Modbus-master core:

* `ModbusClient` (src/unnamed/part_001): connection lifecycle (`connect`,
  `disconnect`), function-code dispatch for `read`/`write`, and the custom
  write-frame encoder `createCustomWritePayload`.
* `ModbusDebugger.tsx` (renderer): value formatting (`formatValue`), cell
  editing (`handleCellEdit`), read-result normalization (`handleRead`) and
  the auto-poll interval.

JavaScript specifics are modelled explicitly: `DataView.setUint16` /
`setInt16` store values modulo 2^16 big-endian; `x || d` substitutes `d`
for falsy values (`undefined`, `0`, `""`); `parseInt` parses the longest
valid digit prefix and yields NaN (here `none`) when no digit is present;
a JavaScript promise settles once, so a `resolve()` followed by a `throw`
inside a callback leaves the promise fulfilled.
-/

namespace LAModbus

/-! ## FrameCodec (`ModbusClient.createCustomWritePayload`) -/

/-- Errors thrown by `createCustomWritePayload`. -/
inductive CodecError
  | invalidAddress
  | payloadTooLarge
  deriving DecidableEq, Repr

/-- `DataView.setUint16(offset, v, false)`: value stored modulo 2^16,
big-endian (high byte first). -/
def setUint16BE (v : Nat) : List Nat :=
  [v % 65536 / 256, v % 256]

/-- `DataView.setInt16(offset, v, false)`: JavaScript converts the number
to its 16-bit two's-complement representative (value modulo 2^16) and
stores it big-endian. -/
def setInt16BE (v : Int) : List Nat :=
  let m := (v % 65536).toNat
  [m / 256, m % 256]

/-- `ModbusClient.createCustomWritePayload(address, data)`: validates the
address and the single-byte byte-count bound, then lays out
`[address:2][registerCount:2][byteCount:1][register0:2]...` big-endian.
Source throws on the two validation failures; modelled as `Except`. -/
def createCustomWritePayload (address : Int) (data : List Int) :
    Except CodecError (List Nat) :=
  if address < 0 ∨ address > 65535 then
    .error .invalidAddress
  else
    let registerCount := data.length
    let dataBytesLength := registerCount * 2
    if dataBytesLength > 255 then
      .error .payloadTooLarge
    else
      .ok (setUint16BE address.toNat ++ setUint16BE registerCount ++
           [dataBytesLength] ++ data.flatMap setInt16BE)

/-- Spec-side layout: a 16-bit quantity written high byte then low byte
(meaningful for `v ≤ 0xFFFF`). -/
def beWord (v : Nat) : List Nat :=
  [v / 256, v % 256]

/-- Spec-side two's-complement encoding of a register: the unique
representative of `v` modulo 2^16 in `0..65535`. -/
def twosComplement16 (v : Int) : Nat :=
  (v % 65536).toNat

/-! ## Connection settings and engine state (`ModbusClient`) -/

inductive Mode
  | RTU
  | TCP
  deriving DecidableEq, Repr

/-- `ConnectionSettings` from `modbus.d.ts`. Optional fields are `Option`;
`slaveId` is declared non-optional (`number`) but may be `0`. -/
structure ConnectionSettings where
  mode : Mode
  slaveId : Nat
  timeout : Option Nat
  ipAddress : Option String
  port : Option Nat
  serialPort : Option String
  baudRate : Option Nat
  dataBits : Option Nat
  parity : Option String
  stopBits : Option Nat
  deriving DecidableEq, Repr

/-- JavaScript `x || d` on an optional number: `undefined` and `0` are
falsy, every other number is kept. -/
def jsOrNat (v : Option Nat) (d : Nat) : Nat :=
  match v with
  | some n => if n = 0 then d else n
  | none => d

/-- JavaScript `x || d` on an optional string: `undefined` and `""` are
falsy. -/
def jsOrStr (v : Option String) (d : String) : String :=
  match v with
  | some s => if s = "" then d else s
  | none => d

/-- The transport endpoint configured by `connectTCP` / `connectRTU`. -/
inductive Target
  | tcp (ip : String) (port : Nat)
  | rtu (path : String) (baudRate : Nat) (dataBits : Nat)
        (parity : String) (stopBits : Nat)
  deriving DecidableEq, Repr

/-- An installed (open) connection handle: `this.client` after a
successful `connect`, carrying the per-transaction timeout, the target
slave id (`setID`) and the opened endpoint. -/
structure Handle where
  timeout : Nat
  slaveId : Nat
  target : Target
  deriving DecidableEq, Repr

/-- `ModbusClient.connect(options)`. The engine state is
`Option Handle` (`none` = disconnected). Any previous handle is nulled
and closed best-effort first, so the outcome never depends on it.
`openResult` stands for the transport open call: `none` = the
`connectTCP`/`connectRTU` promise fulfilled, `some cause` = it rejected
with message `cause`. Returns the new state and the call's outcome;
every failure is wrapped as `Connection failed: <cause>` and leaves the
state empty. -/
def connect (_st : Option Handle) (options : ConnectionSettings)
    (openResult : Option String) : Option Handle × Except String Unit :=
  let timeout := jsOrNat options.timeout 1000
  match options.mode with
  | .TCP =>
    match options.ipAddress with
    | none => (none, .error "Connection failed: TCP mode requires ipAddress")
    | some ip =>
      if ip = "" then
        (none, .error "Connection failed: TCP mode requires ipAddress")
      else
        match openResult with
        | some cause => (none, .error ("Connection failed: " ++ cause))
        | none =>
          (some { timeout := timeout,
                  slaveId := if options.slaveId = 0 then 1 else options.slaveId,
                  target := .tcp ip (jsOrNat options.port 502) }, .ok ())
  | .RTU =>
    match options.serialPort with
    | none => (none, .error "Connection failed: RTU mode requires serialPort")
    | some path =>
      if path = "" then
        (none, .error "Connection failed: RTU mode requires serialPort")
      else
        match openResult with
        | some cause => (none, .error ("Connection failed: " ++ cause))
        | none =>
          (some { timeout := timeout,
                  slaveId := if options.slaveId = 0 then 1 else options.slaveId,
                  target := .rtu path (jsOrNat options.baudRate 9600)
                    (jsOrNat options.dataBits 8) (jsOrStr options.parity "none")
                    (jsOrNat options.stopBits 1) }, .ok ())

/-- `ModbusClient.disconnect()`: closes and clears the handle; succeeds
even when already disconnected. -/
def disconnect (_st : Option Handle) : Option Handle × Except String Unit :=
  (none, .ok ())

/-! ## Read path (`ModbusClient.read` and the renderer's `handleRead`) -/

/-- An element of the transport library's read result: coil/discrete
reads yield booleans, register reads yield numbers. -/
inductive RegisterValue
  | b (x : Bool)
  | n (x : Int)
  deriving DecidableEq, Repr

/-- What the transport would answer for each read primitive on this
transaction. -/
structure TransportReads where
  coils : List Bool
  discreteInputs : List Bool
  holdingRegisters : List Int
  inputRegisters : List Int
  deriving DecidableEq, Repr

inductive ReadError
  | notConnected
  | unsupportedFunctionCode
  | transportError
  deriving DecidableEq, Repr

/-- `ModbusClient.read(params)`: fails when no open client, dispatches
function codes 1–4 to the transport, rejects any other code.
`transportOk = false` models the dispatched transport call rejecting. -/
def clientRead (st : Option Handle) (functionCode : Nat)
    (transportOk : Bool) (transport : TransportReads) :
    Except ReadError (List RegisterValue) :=
  match st with
  | none => .error .notConnected
  | some _ =>
    if functionCode = 1 then
      if transportOk then .ok (transport.coils.map .b) else .error .transportError
    else if functionCode = 2 then
      if transportOk then .ok (transport.discreteInputs.map .b) else .error .transportError
    else if functionCode = 3 then
      if transportOk then .ok (transport.holdingRegisters.map .n) else .error .transportError
    else if functionCode = 4 then
      if transportOk then .ok (transport.inputRegisters.map .n) else .error .transportError
    else .error .unsupportedFunctionCode

/-- The renderer's normalization in `handleRead`:
`typeof v === 'boolean' ? (v ? 1 : 0) : v`. -/
def normalizeValue : RegisterValue → Int
  | .b true => 1
  | .b false => 0
  | .n x => x

/-- The read path as seen by the register monitor: engine dispatch
followed by `handleRead`'s boolean normalization. -/
def engineRead (st : Option Handle) (functionCode : Nat)
    (transportOk : Bool) (transport : TransportReads) :
    Except ReadError (List Int) :=
  (clientRead st functionCode transportOk transport).map (List.map normalizeValue)

/-! ## Write path (`ModbusClient.write`) -/

/-- A call handed to the transport by `write`: one of the four standard
write primitives, or `writeCustomFC` with a hand-built frame. -/
inductive TransportCall
  | writeCoil
  | writeRegister
  | writeCoils
  | writeRegisters
  | customFrame (bytes : List Nat)
  deriving DecidableEq, Repr

inductive WriteError
  | notConnected
  | codec (e : CodecError)
  | transportError
  deriving DecidableEq, Repr

/-- Observable outcome of `ModbusClient.write`: the promise's result,
the calls handed to the transport, and whether a custom-code transport
rejection was downgraded to a `console.warn`. -/
structure WriteOutcome where
  result : Except WriteError Unit
  calls : List TransportCall
  warned : Bool
  deriving Repr

/-- Outcome of a standard-code write: the transport call is made and its
rejection propagates to the caller. -/
def standardWriteOutcome (c : TransportCall) (transportOk : Bool) : WriteOutcome :=
  if transportOk then ⟨.ok (), [c], false⟩ else ⟨.error .transportError, [c], false⟩

/-- `ModbusClient.write(params)`: codes 5/6/15/16 delegate to the
transport and propagate its error. Any other code first builds the frame
with `createCustomWritePayload` (a throw there propagates, nothing is
transmitted), then calls `writeCustomFC`; in its callback an error is
logged with `console.warn` and `resolve()` is called, and since a promise
settles once, the `throw` placed after `resolve()` cannot reject it — so
the write still fulfils. `values` is the number list the custom branch
casts to (`params.values as number[]`); the standard branches do not
inspect it here. -/
def write (st : Option Handle) (functionCode : Nat) (address : Int)
    (values : List Int) (transportOk : Bool) : WriteOutcome :=
  match st with
  | none => ⟨.error .notConnected, [], false⟩
  | some _ =>
    if functionCode = 5 then standardWriteOutcome .writeCoil transportOk
    else if functionCode = 6 then standardWriteOutcome .writeRegister transportOk
    else if functionCode = 15 then standardWriteOutcome .writeCoils transportOk
    else if functionCode = 16 then standardWriteOutcome .writeRegisters transportOk
    else
      match createCustomWritePayload address values with
      | .error e => ⟨.error (.codec e), [], false⟩
      | .ok buf =>
        if transportOk then ⟨.ok (), [.customFrame buf], false⟩
        else ⟨.ok (), [.customFrame buf], true⟩

/-! ## Value formatting (`formatValue`, DEC_S branch) -/

/-- Display formats of the register monitor (`type DataFormat`). -/
inductive DataFormat
  | HEX
  | DEC_U
  | DEC_S
  | UINT32
  | ASCII
  | FLOAT
  deriving DecidableEq, Repr

/-- The numeric reinterpretation performed by `formatValue` for `DEC_S`:
`value > 32767 ? value - 65536 : value`. -/
def decSigned (value : Nat) : Int :=
  if value > 32767 then (value : Int) - 65536 else (value : Int)

/-! ## JavaScript `parseInt` and cell editing (`handleCellEdit`) -/

/-- ASCII whitespace, the relevant part of what JavaScript `trim()` and
`parseInt` strip. -/
def isJsSpace (c : Char) : Bool :=
  c = ' ' ∨ c = '\t' ∨ c = '\n' ∨ c = '\r' ∨ c = '\x0b' ∨ c = '\x0c'

/-- JavaScript `s.trim()`: drop whitespace from both ends. -/
def jsTrim (s : String) : String :=
  ⟨((s.toList.dropWhile isJsSpace).reverse.dropWhile isJsSpace).reverse⟩

/-- Value of a character as a base-16 digit, `none` when it is not one
(exactly the class `[0-9A-Fa-f]`). -/
def digitVal (c : Char) : Option Nat :=
  if '0' ≤ c ∧ c ≤ '9' then some (c.toNat - 48)
  else if 'a' ≤ c ∧ c ≤ 'f' then some (c.toNat - 87)
  else if 'A' ≤ c ∧ c ≤ 'F' then some (c.toNat - 55)
  else none

/-- Longest prefix of digits valid in `base`, as digit values
(JavaScript `parseInt` stops at the first invalid character). -/
def takeDigits (base : Nat) : List Char → List Nat
  | [] => []
  | c :: rest =>
    match digitVal c with
    | some v => if v < base then v :: takeDigits base rest else []
    | none => []

def digitsToNat (base : Nat) (ds : List Nat) : Nat :=
  ds.foldl (fun a d => a * base + d) 0

/-- ECMAScript `parseInt(s, base)` for bases 10 and 16: trim whitespace,
optional sign, for base 16 an optional `0x`/`0X` prefix, then the longest
valid digit prefix; `none` (NaN) when no digit is consumed. -/
def parseIntJS (s : String) (base : Nat) : Option Int :=
  let cs := (jsTrim s).toList
  let signed : Int × List Char :=
    match cs with
    | '-' :: rest => (-1, rest)
    | '+' :: rest => (1, rest)
    | _ => (1, cs)
  let body :=
    if base = 16 then
      match signed.2 with
      | '0' :: 'x' :: rest => rest
      | '0' :: 'X' :: rest => rest
      | _ => signed.2
    else signed.2
  let ds := takeDigits base body
  if ds = [] then none else some (signed.1 * (digitsToNat base ds : Int))

/-- `s.toLowerCase().startsWith('0x')`. -/
def startsWith0x (s : String) : Bool :=
  match s.toList with
  | '0' :: c :: _ => c = 'x' ∨ c = 'X'
  | _ => false

/-- The regex test `/^[0-9A-Fa-f]+$/.test(s)`. -/
def isHexText (s : String) : Bool :=
  decide (s.toList ≠ []) && s.toList.all fun c => (digitVal c).isSome

/-- The parse step of `handleCellEdit`: trim, then hex when the text has
a `0x` prefix or the active format is HEX and the text is hex-digit-only,
else decimal. -/
def parseCellText (dataFormat : DataFormat) (raw : String) : Option Int :=
  let s := jsTrim raw
  if startsWith0x s then parseIntJS s 16
  else if dataFormat = .HEX ∧ isHexText s then parseIntJS s 16
  else parseIntJS s 10

/-- The register monitor's snapshot (`monitorData`): a contiguous block
of values starting at `startAddr`. Values are stored as the numbers the
edit parsed, with no 16-bit reduction. -/
structure MonitorSnapshot where
  startAddr : Nat
  values : List Int
  deriving DecidableEq, Repr

inductive EditError
  | parseError
  | outOfRange
  deriving DecidableEq, Repr

/-- `handleCellEdit(addr, newVal)`: returns the snapshot the state update
produces (unchanged on either failure) together with which failure branch
was taken (`none` = the cell was written). The parsed number is stored
verbatim at index `addr - startAddr` when that index is in range. -/
def handleCellEdit (dataFormat : DataFormat) (snap : MonitorSnapshot)
    (addr : Nat) (newVal : String) : MonitorSnapshot × Option EditError :=
  match parseCellText dataFormat newVal with
  | none => (snap, some .parseError)
  | some num =>
    let index : Int := (addr : Int) - (snap.startAddr : Int)
    if 0 ≤ index ∧ index < snap.values.length then
      ({ snap with values := snap.values.set index.toNat num }, none)
    else
      (snap, some .outOfRange)

/-! ## Auto-poll loop (the `autoRead` interval effect and `handleRead`) -/

/-- The renderer state the auto-poll interval depends on. `reads` counts
read transactions attempted, `log` collects `addLog('SYS', ...)` lines. -/
structure PollState where
  autoRead : Bool
  connected : Bool
  sending : Bool
  log : List String
  reads : Nat
  deriving DecidableEq, Repr

/-- The interval effect installs a 2000 ms timer exactly when
`autoRead && connected && !sending`; ticks fire while this holds. -/
def intervalActive (st : PollState) : Bool :=
  st.autoRead && st.connected && !st.sending

/-- One auto-poll tick with an eligible function code (1–4):
`handleCommand(false)` → `handleRead(false)`. `handleRead` returns at
once when `sending` is set; otherwise it sets `sending`, attempts the
read, on failure only logs `Read Error` (the catch neither clears
`autoRead` nor `connected`), and in `finally` clears `sending`. -/
def pollTick (st : PollState) (readFails : Bool) : PollState :=
  if st.sending then st
  else
    { st with
      sending := false
      reads := st.reads + 1
      log := if readFails then st.log ++ ["Read Error"] else st.log }

/-! ## Theorems -/

/-- C1: for every address `0 ≤ a ≤ 0xFFFF` and register list with
`|rs|*2 ≤ 255`, the custom-write frame encoder produces the big-endian
layout `[address:2][registerCount:2][byteCount:1]` followed by each
register as a signed 16-bit big-endian (two's-complement) integer. The
witness instantiates the spec example
`encodeCustomWrite(0x0010, [1,2,3]) = 00 10 00 03 06 00 01 00 02 00 03`. -/
theorem createCustomWritePayload_layout (a : Int) (rs : List Int)
    (ha0 : 0 ≤ a) (ha : a ≤ 65535) (hlen : rs.length * 2 ≤ 255) :
    createCustomWritePayload a rs =
      .ok (beWord a.toNat ++ beWord rs.length ++ [rs.length * 2] ++
           rs.flatMap (fun r => beWord (twosComplement16 r))) := by
  have hna : ¬(a < 0 ∨ a > 65535) := by omega
  have h2 : ¬(rs.length * 2 > 255) := by omega
  have ha' : a.toNat % 65536 = a.toNat := Nat.mod_eq_of_lt (by omega)
  have hr : rs.length % 65536 = rs.length := Nat.mod_eq_of_lt (by omega)
  simp only [createCustomWritePayload, if_neg hna, if_neg h2,
    setUint16BE, ha', hr, beWord]
  rfl

/-- Witness for C1 at the spec's concrete input. -/
theorem createCustomWritePayload_layout_witness :
    createCustomWritePayload 16 [1, 2, 3] =
      .ok [0x00, 0x10, 0x00, 0x03, 0x06, 0x00, 0x01, 0x00, 0x02, 0x00, 0x03] := by
  rw [createCustomWritePayload_layout 16 [1, 2, 3]
    (by norm_num) (by norm_num) (by norm_num)]
  rfl

/-- C5: for every register list with `|rs|*2 > 255` the encoder fails
with `PayloadTooLarge` and, for a custom-code write, nothing is handed
to the transport: the write fails with that codec error and the list of
transport calls is empty. -/
theorem createCustomWritePayload_tooLarge (a : Int) (rs : List Int)
    (fc : Nat) (h : Handle) (transportOk : Bool)
    (ha0 : 0 ≤ a) (ha : a ≤ 65535) (hlen : 255 < rs.length * 2)
    (hfc : fc ≠ 5 ∧ fc ≠ 6 ∧ fc ≠ 15 ∧ fc ≠ 16) :
    createCustomWritePayload a rs = .error .payloadTooLarge ∧
    (write (some h) fc a rs transportOk).result = .error (.codec .payloadTooLarge) ∧
    (write (some h) fc a rs transportOk).calls = [] := by
  have hna : ¬(a < 0 ∨ a > 65535) := by omega
  have henc : createCustomWritePayload a rs = .error .payloadTooLarge := by
    simp only [createCustomWritePayload, if_neg hna, if_pos hlen]
  refine ⟨henc, ?_, ?_⟩ <;>
    simp [write, hfc.1, hfc.2.1, hfc.2.2.1, hfc.2.2.2, henc]

/-- Witness for C5: 128 registers (256 data bytes) with custom code 0x41. -/
theorem createCustomWritePayload_tooLarge_witness :
    createCustomWritePayload 0 (List.replicate 128 0) = .error .payloadTooLarge ∧
    (write (some ⟨1000, 1, .tcp "127.0.0.1" 502⟩) 0x41 0
        (List.replicate 128 0) true).calls = [] := by
  have h := createCustomWritePayload_tooLarge 0 (List.replicate 128 0)
    0x41 ⟨1000, 1, .tcp "127.0.0.1" 502⟩ true
    (by norm_num) (by norm_num) (by simp) (by norm_num)
  exact ⟨h.1, h.2.2⟩

/-- C2: for a write whose function code is outside `{5, 6, 15, 16}` and
whose frame encodes successfully, a transport-level rejection does not
fail the call: the write still resolves `ok` and only the warning flag is
set (the frame was handed to the transport); for codes in `{5, 6, 15, 16}`
the same transport rejection propagates as an error to the caller. -/
theorem write_customError_swallowed (h : Handle) (fc : Nat) (a : Int)
    (vs : List Int) (buf : List Nat)
    (hfc : fc ≠ 5 ∧ fc ≠ 6 ∧ fc ≠ 15 ∧ fc ≠ 16)
    (henc : createCustomWritePayload a vs = .ok buf) :
    (write (some h) fc a vs false).result = .ok () ∧
    (write (some h) fc a vs false).warned = true ∧
    (write (some h) fc a vs false).calls = [.customFrame buf] ∧
    (write (some h) 5 a vs false).result = .error .transportError ∧
    (write (some h) 6 a vs false).result = .error .transportError ∧
    (write (some h) 15 a vs false).result = .error .transportError ∧
    (write (some h) 16 a vs false).result = .error .transportError := by
  refine ⟨?_, ?_, ?_, ?_, ?_, ?_, ?_⟩ <;>
    simp [write, hfc.1, hfc.2.1, hfc.2.2.1, hfc.2.2.2, henc,
      standardWriteOutcome]

/-- Witness for C2 at custom code 0x41 writing one register. -/
theorem write_customError_swallowed_witness :
    (write (some ⟨1000, 1, .tcp "127.0.0.1" 502⟩) 0x41 0 [1] false).result =
      .ok () ∧
    (write (some ⟨1000, 1, .tcp "127.0.0.1" 502⟩) 6 0 [1] false).result =
      .error .transportError := by
  have h := write_customError_swallowed ⟨1000, 1, .tcp "127.0.0.1" 502⟩
    0x41 0 [1] [0, 0, 0, 1, 2, 0, 1] (by norm_num) (by rfl)
  exact ⟨h.1, h.2.2.2.2.1⟩

/-- `normalizeValue` on a boolean transport element. -/
theorem normalizeValue_bool (b : Bool) :
    normalizeValue (.b b) = if b then 1 else 0 := by
  cases b <;> rfl

/-- C3: for every successful read with function code 1 or 2, the values
delivered by the read path are exactly the transport booleans mapped to
`1`/`0`, so every element of the result is the number `0` or `1`. -/
theorem engineRead_normalizes_booleans (h : Handle) (fc : Nat)
    (tp : TransportReads) (hfc : fc = 1 ∨ fc = 2) :
    engineRead (some h) fc true tp =
      .ok ((if fc = 1 then tp.coils else tp.discreteInputs).map
            (fun b => if b then (1 : Int) else 0)) ∧
    ∀ vals, engineRead (some h) fc true tp = .ok vals →
      ∀ x ∈ vals, x = 0 ∨ x = 1 := by
  have heq : engineRead (some h) fc true tp =
      .ok ((if fc = 1 then tp.coils else tp.discreteInputs).map
            (fun b => if b then (1 : Int) else 0)) := by
    rcases hfc with hfc | hfc <;> subst hfc <;>
      simp [engineRead, clientRead, Except.map, List.map_map,
        Function.comp, normalizeValue_bool]
  refine ⟨heq, ?_⟩
  intro vals hvals x hx
  rw [heq] at hvals
  simp only [Except.ok.injEq] at hvals
  subst hvals
  simp only [List.mem_map] at hx
  obtain ⟨b, _, rfl⟩ := hx
  cases b <;> simp

/-- Witness for C3 at function code 1 with transport answer
`[true, false, true]`. -/
theorem engineRead_normalizes_booleans_witness :
    engineRead (some ⟨1000, 1, .tcp "127.0.0.1" 502⟩) 1 true
      ⟨[true, false, true], [], [], []⟩ = .ok [1, 0, 1] := by
  have h := engineRead_normalizes_booleans ⟨1000, 1, .tcp "127.0.0.1" 502⟩
    1 ⟨[true, false, true], [], [], []⟩ (Or.inl rfl)
  rw [h.1]
  rfl

/-- `connect` never installs a handle when given `some cause` for the
open result or when the mode's required field is missing. -/
def requiredFieldPresent (opts : ConnectionSettings) : Bool :=
  match opts.mode with
  | .TCP => match opts.ipAddress with
    | some ip => decide (ip ≠ "")
    | none => false
  | .RTU => match opts.serialPort with
    | some p => decide (p ≠ "")
    | none => false

/-- C4: whenever `connect` fails — the mode's required field is missing,
or the transport open rejects — the engine's handle ends empty and the
caller receives the cause wrapped as `Connection failed: <cause>`; a
subsequent read on the empty handle fails with `NotConnected`. This holds
from every prior state `st`, including a previously connected one. -/
theorem connect_failure_leaves_disconnected (st : Option Handle)
    (opts : ConnectionSettings) (r : Option String) (cause : String)
    (fc : Nat) (transportOk : Bool) (tp : TransportReads) :
    (opts.mode = .TCP → (opts.ipAddress = none ∨ opts.ipAddress = some "") →
      connect st opts r =
        (none, .error "Connection failed: TCP mode requires ipAddress")) ∧
    (opts.mode = .RTU → (opts.serialPort = none ∨ opts.serialPort = some "") →
      connect st opts r =
        (none, .error "Connection failed: RTU mode requires serialPort")) ∧
    (requiredFieldPresent opts = true →
      connect st opts (some cause) =
        (none, .error ("Connection failed: " ++ cause))) ∧
    clientRead none fc transportOk tp = .error .notConnected := by
  refine ⟨?_, ?_, ?_, rfl⟩
  · rintro hm (hip | hip) <;> simp [connect, hm, hip]
  · rintro hm (hsp | hsp) <;> simp [connect, hm, hsp]
  · intro hreq
    rcases hmode : opts.mode with _ | _ <;>
      simp only [requiredFieldPresent, hmode] at hreq
    · rcases hsp : opts.serialPort with _ | p <;> rw [hsp] at hreq
      · simp at hreq
      · simp only [decide_eq_true_eq] at hreq
        simp [connect, hmode, hsp, hreq]
    · rcases hip : opts.ipAddress with _ | ip <;> rw [hip] at hreq
      · simp at hreq
      · simp only [decide_eq_true_eq] at hreq
        simp [connect, hmode, hip, hreq]

/-- Witness for C4: the spec scenario — RTU, port `COM3`, baud 9600, the
port does not exist. -/
theorem connect_failure_leaves_disconnected_witness :
    connect (some ⟨1000, 1, .tcp "127.0.0.1" 502⟩)
      ⟨.RTU, 1, some 1000, none, none, some "COM3", some 9600, some 8,
        some "none", some 1⟩
      (some "Opening COM3: File not found") =
      (none, .error "Connection failed: Opening COM3: File not found") ∧
    clientRead none 3 true ⟨[], [], [], []⟩ = .error .notConnected := by
  have h := connect_failure_leaves_disconnected
    (some ⟨1000, 1, .tcp "127.0.0.1" 502⟩)
    ⟨.RTU, 1, some 1000, none, none, some "COM3", some 9600, some 8,
      some "none", some 1⟩
    (some "Opening COM3: File not found") "Opening COM3: File not found"
    3 true ⟨[], [], [], []⟩
  exact ⟨h.2.2.1 (by rfl), h.2.2.2⟩

/-- C10: `connect` substitutes defaults for absent or zero-valued (falsy)
fields: timeout `0`/absent → 1000 ms, TCP port absent → 502, baudRate
absent → 9600, dataBits absent → 8, parity absent → `none`, stopBits
absent → 1, and slave id `0` → 1 — and on every successful connect the
installed slave id is nonzero, so slave id 0 can never be targeted. -/
theorem connect_defaults (st : Option Handle) (opts : ConnectionSettings)
    (sp ip : String) :
    (opts.mode = .RTU → opts.serialPort = some sp → sp ≠ "" →
     opts.timeout = none → opts.baudRate = none → opts.dataBits = none →
     opts.parity = none → opts.stopBits = none → opts.slaveId = 0 →
      connect st opts none = (some ⟨1000, 1, .rtu sp 9600 8 "none" 1⟩, .ok ())) ∧
    (opts.mode = .TCP → opts.ipAddress = some ip → ip ≠ "" →
     opts.timeout = some 0 → opts.port = none →
      connect st opts none =
        (some ⟨1000, if opts.slaveId = 0 then 1 else opts.slaveId,
          .tcp ip 502⟩, .ok ())) ∧
    (∀ h : Handle, (connect st opts none).1 = some h → h.slaveId ≠ 0) := by
  refine ⟨?_, ?_, ?_⟩
  · intro hm hsp hne ht hb hd hp hs hid
    simp [connect, hm, hsp, hne, ht, hb, hd, hp, hs, hid, jsOrNat, jsOrStr]
  · intro hm hip hne ht hp
    simp [connect, hm, hip, hne, ht, hp, jsOrNat]
  · intro h hc
    rcases hmode : opts.mode with _ | _ <;>
      simp only [connect, hmode] at hc
    · rcases hsp : opts.serialPort with _ | p <;> rw [hsp] at hc
      · simp at hc
      · by_cases hpe : p = "" <;> simp [hpe] at hc
        rw [← hc]
        show (if opts.slaveId = 0 then 1 else opts.slaveId) ≠ 0
        split <;> omega
    · rcases hip : opts.ipAddress with _ | i <;> rw [hip] at hc
      · simp at hc
      · by_cases hie : i = "" <;> simp [hie] at hc
        rw [← hc]
        show (if opts.slaveId = 0 then 1 else opts.slaveId) ≠ 0
        split <;> omega

/-- Witness for C10: an RTU connect with every optional field absent and
slave id 0, and a TCP connect with timeout 0 and port absent. -/
theorem connect_defaults_witness :
    connect none ⟨.RTU, 0, none, none, none, some "COM3", none, none,
      none, none⟩ none =
      (some ⟨1000, 1, .rtu "COM3" 9600 8 "none" 1⟩, .ok ()) ∧
    connect none ⟨.TCP, 7, some 0, some "10.0.0.2", none, none, none,
      none, none, none⟩ none =
      (some ⟨1000, 7, .tcp "10.0.0.2" 502⟩, .ok ()) := by
  have h1 := connect_defaults none
    ⟨.RTU, 0, none, none, none, some "COM3", none, none, none, none⟩
    "COM3" ""
  have h2 := connect_defaults none
    ⟨.TCP, 7, some 0, some "10.0.0.2", none, none, none, none, none, none⟩
    "" "10.0.0.2"
  refine ⟨h1.1 rfl rfl (by decide) rfl rfl rfl rfl rfl rfl, ?_⟩
  have := h2.2.1 rfl rfl (by decide) rfl rfl
  simpa using this

/-- Successful edit: the parsed number is written at the cell's index. -/
theorem handleCellEdit_inRange (fmt : DataFormat) (snap : MonitorSnapshot)
    (addr : Nat) (s : String) (n : Int)
    (hp : parseCellText fmt s = some n)
    (hlo : snap.startAddr ≤ addr)
    (hhi : addr < snap.startAddr + snap.values.length) :
    handleCellEdit fmt snap addr s =
      ({ snap with values := snap.values.set (addr - snap.startAddr) n },
        none) := by
  unfold handleCellEdit
  rw [hp]
  have hidx : ((addr : Int) - (snap.startAddr : Int)).toNat =
      addr - snap.startAddr := by omega
  dsimp only
  rw [if_pos ⟨by omega, by omega⟩, hidx]

/-- Edit at an address outside the snapshot: rejected, state unchanged. -/
theorem handleCellEdit_outOfRange (fmt : DataFormat) (snap : MonitorSnapshot)
    (addr : Nat) (s : String) (n : Int)
    (hp : parseCellText fmt s = some n)
    (hout : addr < snap.startAddr ∨ snap.startAddr + snap.values.length ≤ addr) :
    handleCellEdit fmt snap addr s = (snap, some .outOfRange) := by
  unfold handleCellEdit
  rw [hp]
  dsimp only
  rw [if_neg (by omega)]

/-- Edit whose text does not parse: rejected, state unchanged. -/
theorem handleCellEdit_parseFail (fmt : DataFormat) (snap : MonitorSnapshot)
    (addr : Nat) (s : String) (hp : parseCellText fmt s = none) :
    handleCellEdit fmt snap addr s = (snap, some .parseError) := by
  unfold handleCellEdit
  rw [hp]

/-- C6: `editCell` parses hex on a `0x` prefix, or when the display
format is HEX and the text is hex-digit-only, else decimal; `"0x1F"` sets
the target register to 31; text that does not parse fails with
`ParseError` and leaves the snapshot unchanged; a parsed edit at an
address outside the snapshot fails with `OutOfRange` (also unchanged). -/
theorem editCell_spec (fmt : DataFormat) (snap : MonitorSnapshot)
    (addr : Nat) (s : String) (n : Int) :
    (startsWith0x (jsTrim s) = true ∨
        (fmt = .HEX ∧ isHexText (jsTrim s) = true) →
      parseCellText fmt s = parseIntJS (jsTrim s) 16) ∧
    (startsWith0x (jsTrim s) = false →
        (fmt = .HEX → isHexText (jsTrim s) = false) →
      parseCellText fmt s = parseIntJS (jsTrim s) 10) ∧
    (snap.startAddr ≤ addr → addr < snap.startAddr + snap.values.length →
      handleCellEdit fmt snap addr "0x1F" =
        ({ snap with values := snap.values.set (addr - snap.startAddr) 31 },
          none)) ∧
    (parseCellText fmt s = none →
      handleCellEdit fmt snap addr s = (snap, some .parseError)) ∧
    (parseCellText fmt s = some n →
      addr < snap.startAddr ∨ snap.startAddr + snap.values.length ≤ addr →
      handleCellEdit fmt snap addr s = (snap, some .outOfRange)) := by
  refine ⟨?_, ?_, ?_, ?_, ?_⟩
  · rintro (hsw | ⟨hf, hx⟩)
    · simp [parseCellText, hsw]
    · by_cases hsw : startsWith0x (jsTrim s) = true <;>
        simp [parseCellText, hsw, hf, hx]
  · intro hsw hnx
    by_cases hf : fmt = .HEX
    · simp [parseCellText, hsw, hf, hnx hf]
    · simp [parseCellText, hsw, hf]
  · intro h1 h2
    exact handleCellEdit_inRange fmt snap addr "0x1F" 31 rfl h1 h2
  · exact handleCellEdit_parseFail fmt snap addr s
  · exact handleCellEdit_outOfRange fmt snap addr s n

/-- Witness for C6: `"0x1F"` writes 31; `"hello"` is a `ParseError`
leaving the snapshot unchanged; `"12"` at address 5 of a one-cell
snapshot at 0 is `OutOfRange`. -/
theorem editCell_spec_witness :
    handleCellEdit .DEC_U ⟨0, [7]⟩ 0 "0x1F" = (⟨0, [31]⟩, none) ∧
    handleCellEdit .DEC_U ⟨0, [7]⟩ 0 "hello" = (⟨0, [7]⟩, some .parseError) ∧
    handleCellEdit .DEC_U ⟨0, [7]⟩ 5 "12" = (⟨0, [7]⟩, some .outOfRange) := by
  have h1 := (editCell_spec .DEC_U ⟨0, [7]⟩ 0 "0x1F" 31).2.2.1
    (by norm_num) (by decide)
  have h2 := (editCell_spec .DEC_U ⟨0, [7]⟩ 0 "hello" 0).2.2.2.1 (by rfl)
  have h3 := (editCell_spec .DEC_U ⟨0, [7]⟩ 5 "12" 12).2.2.2.2 (by rfl)
    (Or.inr (by decide))
  exact ⟨h1, h2, h3⟩

/-- C9: a cell edit whose text parses to `n` stores `n` verbatim — no
clamping and no reduction modulo 2^16 — so an edited snapshot value may
lie outside `0..65535`. -/
theorem editCell_stores_verbatim (fmt : DataFormat) (snap : MonitorSnapshot)
    (addr : Nat) (s : String) (n : Int)
    (hp : parseCellText fmt s = some n)
    (hlo : snap.startAddr ≤ addr)
    (hhi : addr < snap.startAddr + snap.values.length) :
    (handleCellEdit fmt snap addr s).1.values =
      snap.values.set (addr - snap.startAddr) n ∧
    (handleCellEdit fmt snap addr s).2 = none ∧
    (handleCellEdit fmt snap addr s).1.startAddr = snap.startAddr := by
  rw [handleCellEdit_inRange fmt snap addr s n hp hlo hhi]
  exact ⟨rfl, rfl, rfl⟩

/-- Witness for C9: `"70000"` stores 70000 (outside the 16-bit range) and
`"-5"` stores -5. -/
theorem editCell_stores_verbatim_witness :
    (handleCellEdit .DEC_U ⟨0, [0]⟩ 0 "70000").1.values = [70000] ∧
    (handleCellEdit .DEC_U ⟨5, [1, 2]⟩ 6 "-5").1.values = [1, -5] ∧
    ¬((70000 : Int) ≤ 65535) := by
  have h1 := editCell_stores_verbatim .DEC_U ⟨0, [0]⟩ 0 "70000" 70000
    (by rfl) (by norm_num) (by decide)
  have h2 := editCell_stores_verbatim .DEC_U ⟨5, [1, 2]⟩ 6 "-5" (-5)
    (by rfl) (by norm_num) (by decide)
  refine ⟨?_, ?_, by norm_num⟩
  · rw [h1.1]; rfl
  · rw [h2.1]; rfl

/-- C7: the DEC_SIGNED decoding of a 16-bit register value `v` is `v`
for `v ≤ 32767` and `v − 65536` above, i.e. the unique integer in
`[-32768, 32767]` congruent to `v` modulo 2^16 (two's complement). -/
theorem decSigned_twosComplement (v : Nat) (hv : v < 65536) :
    decSigned v % 65536 = (v : Int) % 65536 ∧
    -32768 ≤ decSigned v ∧ decSigned v ≤ 32767 ∧
    (v ≤ 32767 → decSigned v = (v : Int)) ∧
    (32767 < v → decSigned v = (v : Int) - 65536) := by
  unfold decSigned
  split <;>
    exact ⟨by omega, by omega, by omega, fun h2 => by omega,
      fun h2 => by omega⟩

/-- Witness for C7: `65535 → -1`, `32768 → -32768`, `0 → 0`. -/
theorem decSigned_twosComplement_witness :
    decSigned 65535 = -1 ∧ decSigned 32768 = -32768 ∧ decSigned 0 = 0 := by
  have h1 := (decSigned_twosComplement 65535 (by norm_num)).2.2.2.2
    (by norm_num)
  have h2 := (decSigned_twosComplement 32768 (by norm_num)).2.2.2.2
    (by norm_num)
  have h3 := (decSigned_twosComplement 0 (by norm_num)).2.2.2.1
    (by norm_num)
  exact ⟨by rw [h1]; norm_num, by rw [h2]; norm_num, by rw [h3]; norm_num⟩

/-- C8 counterexample: from the armed state (auto-read on, connected, not
sending) a tick whose read transaction fails leaves the interval active —
`autoRead` and `connected` are untouched, only `Read Error` is logged —
and the next tick starts and performs another read without the caller
re-arming anything. So a failing tick does not stop the poll loop. -/
theorem pollTick_failure_keeps_loop_armed :
    intervalActive (pollTick ⟨true, true, false, [], 0⟩ true) = true ∧
    (pollTick ⟨true, true, false, [], 0⟩ true).log = ["Read Error"] ∧
    (pollTick (pollTick ⟨true, true, false, [], 0⟩ true) true).reads = 2 := by
  exact ⟨rfl, rfl, rfl⟩

/-- C8 amended: a tick whose read transaction fails does not stop the
loop. The failure is only logged (`Read Error`); `autoRead` and
`connected` are unchanged and `sending` is cleared, so if the interval
was active it stays active and further ticks run further reads; the loop
stops only when the caller disengages auto-poll or disconnects. -/
theorem pollTick_failure_continues (st : PollState)
    (h : st.sending = false) :
    (pollTick st true).autoRead = st.autoRead ∧
    (pollTick st true).connected = st.connected ∧
    (pollTick st true).sending = false ∧
    (pollTick st true).log = st.log ++ ["Read Error"] ∧
    (intervalActive st = true → intervalActive (pollTick st true) = true) ∧
    ∀ b, (pollTick (pollTick st true) b).reads = st.reads + 2 := by
  simp [pollTick, intervalActive, h]

/-- Witness for C8 (amended) from the armed state. -/
theorem pollTick_failure_continues_witness :
    (pollTick ⟨true, true, false, [], 0⟩ true).autoRead = true ∧
    (pollTick (pollTick ⟨true, true, false, [], 0⟩ true) false).reads = 2 := by
  have h := pollTick_failure_continues ⟨true, true, false, [], 0⟩ rfl
  exact ⟨h.1, h.2.2.2.2.2 false⟩

end LAModbus
